import Mathlib

/-!
Verification of the game-loop core of the sws-game-center repository.

The two game engines (a lane-crossing game, `src/games/crossy-road`, and a
pipe-navigation game, `src/games/flappy-bird`) are shallowly embedded below.
Numeric state (positions, velocities, sizes, speeds) is modelled with `ℚ`,
the exact idealisation of the JavaScript number arithmetic the code performs.
Each definition is a direct transcription of the corresponding source
function; stateful React updates become explicit state-passing on a state
structure, and each per-frame animation callback becomes a step function.
-/

/-- An axis-aligned rectangle, as used by both collision detectors. -/
structure Rect where
  left : ℚ
  right : ℚ
  top : ℚ
  bottom : ℚ
deriving Repr, DecidableEq

/-- The strict axis-aligned bounding-box overlap test, exactly the formula of
`checkCollisions` in `crossy-road/Game.tsx`:
`a.right > b.left && a.left < b.right && a.bottom > b.top && a.top < b.bottom`. -/
def aabbCollides (a b : Rect) : Bool :=
  decide (b.left < a.right) && decide (a.left < b.right) &&
    decide (b.top < a.bottom) && decide (a.top < b.bottom)

namespace Flappy

/-- Tunable settings of the pipe-navigation game
(`DEFAULT_SETTINGS` in `flappy-bird/Game.tsx`). -/
structure Settings where
  gravity : ℚ
  jumpForce : ℚ
  pipeSpeed : ℚ
  gapSize : ℚ
deriving Repr, DecidableEq

/-- The default settings of `flappy-bird/Game.tsx`. -/
def defaultSettings : Settings :=
  { gravity := 6/10, jumpForce := -9, pipeSpeed := 3, gapSize := 250 }

/-- One pipe pair (`PipeData` in `flappy-bird/Game.tsx`): shared horizontal
position `x` and the height of the top segment. -/
structure PipeData where
  id : ℕ
  x : ℚ
  height : ℚ
deriving Repr, DecidableEq

/-- The per-frame mutable state of the pipe-navigation game: bird position,
velocity and rotation, live pipes, score and the game-over flag. -/
structure State where
  birdPosition : ℚ
  birdVelocity : ℚ
  birdRotation : ℚ
  pipes : List PipeData
  score : ℕ
  gameOver : Bool
deriving Repr, DecidableEq

/-- The bird's fixed collision rectangle at vertical position `pos`
(`birdRect` in `checkCollision`): left 96, right 144, height 48. -/
def birdRect (pos : ℚ) : Rect :=
  { left := 96, right := 144, top := pos, bottom := pos + 48 }

/-- The top segment's rectangle of a pipe pair (`topPipeRect`). -/
def topPipeRect (p : PipeData) : Rect :=
  { left := p.x, right := p.x + 80, top := 0, bottom := p.height }

/-- The bottom segment's rectangle of a pipe pair (`bottomPipeRect`);
`innerH` is `window.innerHeight`. -/
def bottomPipeRect (gapSize innerH : ℚ) (p : PipeData) : Rect :=
  { left := p.x, right := p.x + 80, top := p.height + gapSize, bottom := innerH }

/-- Transcription of `checkCollision` in `flappy-bird/Game.tsx`: for each
pipe the bird either overlaps the top rectangle (three strict comparisons, the
`bird.bottom > 0` conjunct being omitted in the source) or the bottom rectangle
(three strict comparisons, the `bird.top < innerH` conjunct being omitted). -/
def checkCollision (gapSize innerH : ℚ) (birdPos : ℚ) (pipes : List PipeData) : Bool :=
  pipes.any fun p =>
    (decide ((topPipeRect p).left < (birdRect birdPos).right) &&
      decide ((birdRect birdPos).left < (topPipeRect p).right) &&
      decide ((birdRect birdPos).top < (topPipeRect p).bottom)) ||
    (decide ((bottomPipeRect gapSize innerH p).left < (birdRect birdPos).right) &&
      decide ((birdRect birdPos).left < (bottomPipeRect gapSize innerH p).right) &&
      decide ((bottomPipeRect gapSize innerH p).top < (birdRect birdPos).bottom))

/-- The score condition of the main loop, transcribed from
`pipe.x + settings.pipeSpeed >= 96 && pipe.x < 96` where `pipe.x` is the pipe's
position after this frame's movement. -/
def scoreTrigger (newX pipeSpeed : ℚ) : Bool :=
  decide (96 ≤ newX + pipeSpeed) && decide (newX < 96)

/-- The randomized top-pipe height of `spawnPipe`:
`Math.random() * (maxHeight - minHeight) + minHeight` with `minHeight = 50`
and `maxHeight = innerH - gapSize - 50`; `r` is the random draw. -/
def spawnPipeHeight (r innerH gapSize : ℚ) : ℚ :=
  r * ((innerH - gapSize - 50) - 50) + 50

/-- One frame of the Running loop (`gameLoop` in `flappy-bird/Game.tsx`).
The position updater adds the frame's (pre-update) velocity and rejects an
out-of-bounds result, setting game-over and keeping the old position; then the
velocity gains gravity and the rotation eases toward 90°; pipes advance left and
are culled at `x ≤ -100`; each surviving pipe whose new position just crossed
the bird's slot adds one point; finally the collision check runs on the frame's
original bird position and pipe list (the closure values in the source). -/
def gameLoop (st : Settings) (innerH : ℚ) (s : State) : State :=
  let newPos := s.birdPosition + s.birdVelocity
  let outOfBounds : Bool := decide (newPos < 0) || decide (innerH - 48 < newPos)
  let pos' := if outOfBounds then s.birdPosition else newPos
  let vel' := s.birdVelocity + st.gravity
  let rot' := min (s.birdRotation + 3) 90
  let newPipes :=
    (s.pipes.map fun p => { p with x := p.x - st.pipeSpeed }).filter
      fun p => decide (-100 < p.x)
  let score' := s.score + (newPipes.filter fun p => scoreTrigger p.x st.pipeSpeed).length
  let collided := checkCollision st.gapSize innerH s.birdPosition s.pipes
  { birdPosition := pos'
    birdVelocity := vel'
    birdRotation := rot'
    pipes := newPipes
    score := score'
    gameOver := s.gameOver || outOfBounds || collided }

/-- The new pipe position tested by the score trigger at frame `n` (counting
from 0) for a pipe whose position at the start of frame 0 is `x0`: after `n+1`
movements by `pipeSpeed`. -/
def pipeXAfter (x0 pipeSpeed : ℚ) (n : ℕ) : ℚ :=
  x0 - (n + 1) * pipeSpeed

end Flappy

namespace Crossy

/-- Tunable settings of the lane-crossing game
(`DEFAULT_SETTINGS` in `crossy-road/Game.tsx`), numeric fields only. -/
structure Settings where
  characterSize : ℚ
  carSize : ℚ
  baseCarSpeed : ℚ
  maxCarSpeed : ℚ
  carSpawnRate : ℚ
  levelSpeedIncrease : ℚ
  levelSpawnIncrease : ℚ
deriving Repr, DecidableEq

/-- The numeric default settings of `crossy-road/Game.tsx`. -/
def defaultSettings : Settings :=
  { characterSize := 30, carSize := 40, baseCarSpeed := 2, maxCarSpeed := 10,
    carSpawnRate := 2/100, levelSpeedIncrease := 5/100, levelSpawnIncrease := 1/10 }

/-- The player character (`components/Character.ts`): position, square side
length and the alive flag. -/
structure Character where
  x : ℚ
  y : ℚ
  size : ℚ
  isAlive : Bool
deriving Repr, DecidableEq

/-- The `Character` constructor: position from the caller, size from the
settings, initially alive. -/
def Character.mk' (x y : ℚ) (st : Settings) : Character :=
  { x := x, y := y, size := st.characterSize, isAlive := true }

/-- Transcription of `Character.move`: each axis moves by `d * size` and the movement of an axis
is kept only when the resulting box stays inside `[0, bound − size]` on that
axis, independently of the other axis. -/
def Character.move (c : Character) (dx dy gameWidth gameHeight : ℚ) : Character :=
  let newX := c.x + dx * c.size
  let newY := c.y + dy * c.size
  { c with
    x := if 0 ≤ newX ∧ newX + c.size ≤ gameWidth then newX else c.x
    y := if 0 ≤ newY ∧ newY + c.size ≤ gameHeight then newY else c.y }

/-- A static obstacle (`components/Obstacle.tsx`): position and square size
(the type and color play no role in the mechanics). -/
structure Obstacle where
  x : ℚ
  y : ℚ
  size : ℚ
deriving Repr, DecidableEq

/-- A car obstacle (`components/Car.tsx`): position, box dimensions, speed and
direction. -/
structure Car where
  x : ℚ
  y : ℚ
  width : ℚ
  height : ℚ
  speed : ℚ
  direction : ℚ
deriving Repr, DecidableEq

/-- The mutable session state of the lane-crossing game that the move and
collision paths touch: the character, live cars, obstacles, score, level and
the game-over flag. -/
structure State where
  character : Character
  cars : List Car
  obstacles : List Obstacle
  score : ℕ
  level : ℕ
  gameOver : Bool
deriving Repr, DecidableEq

/-- The obstacle-overlap test of `moveCharacter`, on the character's
destination box:
`newX < o.x + o.size && newX + size > o.x && newY < o.y + o.size && newY + size > o.y`. -/
def willCollide (obstacles : List Obstacle) (newX newY csize : ℚ) : Bool :=
  obstacles.any fun o =>
    decide (newX < o.x + o.size) && decide (o.x < newX + csize) &&
      decide (newY < o.y + o.size) && decide (o.y < newY + csize)

/-- Transcription of `moveCharacter` in `crossy-road/Game.tsx`: a no-op when game-over; the
destination box is tested against every static obstacle and the clamped move is
applied only when free; afterwards, an upward move that took the character from
`y > 50` to `y ≤ 50` increments the level, adds 100 points and recreates the
character at the bottom start row, while an upward move that leaves the
character at `y > 50` adds 10 points (this scoring branch does not re-check
whether the move was accepted). -/
def moveCharacter (st : Settings) (canvasW canvasH : ℚ) (s : State) (dx dy : ℚ) : State :=
  if s.gameOver then s else
  let c := s.character
  let oldY := c.y
  let newX := c.x + dx * c.size
  let newY := c.y + dy * c.size
  let c1 := if willCollide s.obstacles newX newY c.size then c
            else c.move dx dy canvasW canvasH
  if dy < 0 ∧ 50 < oldY ∧ c1.y ≤ 50 then
    { s with
      level := s.level + 1
      score := s.score + 100
      character := Character.mk' c1.x (canvasH - st.characterSize - 10) st }
  else if dy < 0 ∧ 50 < c1.y then
    { s with
      score := s.score + 10
      character := Character.mk' c1.x c1.y st }
  else
    { s with character := c1 }

/-- A sequence of raw `Character.move` calls, folded left to right. -/
def moveSeq (c : Character) (gameWidth gameHeight : ℚ) (ms : List (ℚ × ℚ)) : Character :=
  ms.foldl (fun c m => c.move m.1 m.2 gameWidth gameHeight) c

/-- The character's box lies inside the play field. -/
def Character.inBounds (c : Character) (gameWidth gameHeight : ℚ) : Prop :=
  0 ≤ c.x ∧ c.x + c.size ≤ gameWidth ∧ 0 ≤ c.y ∧ c.y + c.size ≤ gameHeight

instance (c : Character) (w h : ℚ) : Decidable (c.inBounds w h) := by
  unfold Character.inBounds; infer_instance

/-- The character's bounding box as a rectangle (`charBox` in `checkCollisions`). -/
def charRect (c : Character) : Rect :=
  { left := c.x, right := c.x + c.size, top := c.y, bottom := c.y + c.size }

/-- A car's bounding box as a rectangle (`carBox` in `checkCollisions`). -/
def carRect (car : Car) : Rect :=
  { left := car.x, right := car.x + car.width, top := car.y, bottom := car.y + car.height }

/-- Transcription of `checkCollisions` in `crossy-road/Game.tsx`: some car
satisfies `character.isAlive && charBox.right > carBox.left && charBox.left <
carBox.right && charBox.bottom > carBox.top && charBox.top < carBox.bottom`. -/
def checkCollisions (c : Character) (cars : List Car) : Bool :=
  cars.any fun car =>
    c.isAlive && decide (car.x < c.x + c.size) && decide (c.x < car.x + car.width) &&
      decide (car.y < c.y + c.size) && decide (c.y < car.y + car.height)

/-- The maximum number of cars a single spawn tick may create
(`Math.min(1 + Math.floor(level / 3), 3)` in `spawnCar`). -/
def maxCarsToSpawn (level : ℕ) : ℕ :=
  min (1 + level / 3) 3

/-- The per-tick spawn chance of `spawnCar`:
`Math.min(carSpawnRate * (1 + level * levelSpawnIncrease) + Math.floor(level / 5) * 0.01, 0.2)`. -/
def totalSpawnChance (st : Settings) (level : ℕ) : ℚ :=
  min (st.carSpawnRate * (1 + level * st.levelSpawnIncrease) + (level / 5 : ℕ) * (1/100))
    (2/10)

/-- The number of cars a cooldown-elapsed spawn tick creates, from the two
random draws `r1` (spawn-chance roll) and `r2` (count roll):
`Math.random() < totalSpawnChance ? Math.ceil(Math.random() * maxCarsToSpawn) : 1`. -/
def carsToSpawn (st : Settings) (level : ℕ) (r1 r2 : ℚ) : ℤ :=
  if r1 < totalSpawnChance st level then ⌈r2 * (maxCarsToSpawn level : ℚ)⌉ else 1

/-- The lane-rejection loop of `spawnCar` (`do { lane = ... } while (usedLanes.has(lane))`),
with the successive random lane draws made explicit as a list: the first draw
not already used is selected. Returns the lane and the remaining draws. -/
def pickFreshLane : List ℕ → List ℕ → Option (ℕ × List ℕ)
  | [], _ => none
  | d :: rest, used => if d ∈ used then pickFreshLane rest used else some (d, rest)

/-- The lanes selected for one spawn tick of `count` cars: each iteration draws
until it finds a lane not in the used set, then adds it to the used set. -/
def spawnLanes : ℕ → List ℕ → List ℕ → List ℕ
  | 0, _, _ => []
  | count + 1, draws, used =>
    match pickFreshLane draws used with
    | none => []
    | some (lane, rest) => lane :: spawnLanes count rest (lane :: used)

end Crossy

namespace Scores

/-- One high-score row (`rgc_high_scores`): username and score. -/
structure ScoreEntry where
  username : String
  score : ℤ
deriving Repr, DecidableEq

/-- The value `Math.min(...scores.map(s => s.score))` over a fetched score list
(only evaluated on lists of length ≥ 3 in the source). -/
def minScore (store : List ScoreEntry) : ℤ :=
  ((store.map ScoreEntry.score).min?).getD 0

/-- Outcome of a submission: silently dropped for an empty username, rejected
with a user-visible notice when the score is too low for a full store, or
accepted with the resulting store contents. -/
inductive SaveResult where
  | noUsername : SaveResult
  | rejectedLow : SaveResult
  | accepted : List ScoreEntry → SaveResult
deriving Repr, DecidableEq

/-- Transcription of `saveHighScore` in `flappy-bird/Game.tsx`, as a function of the fetched
store contents: an empty username submits nothing; with at least 3 entries and
a score not exceeding the current minimum the user is alerted and nothing
changes; otherwise, when the store is full every row holding the minimum score
is deleted (`delete().eq('score', lowestScore)`) and the new row is inserted. -/
def saveHighScore (store : List ScoreEntry) (username : String) (score : ℤ) :
    SaveResult :=
  if username = "" then .noUsername
  else if 3 ≤ store.length ∧ score ≤ minScore store then .rejectedLow
  else if 3 ≤ store.length then
    .accepted ((store.filter fun e => e.score ≠ minScore store) ++ [⟨username, score⟩])
  else
    .accepted (store ++ [⟨username, score⟩])

/-- Whether a submission outcome wrote a new row. -/
def SaveResult.isAccepted : SaveResult → Bool
  | .accepted _ => true
  | _ => false

end Scores

/-! Concrete scenario states used to instantiate the theorems below. -/

/-- Scenario C's bird: position 300, velocity 0, rotation 0, no pipes, score 0. -/
def birdStart : Flappy.State :=
  { birdPosition := 300, birdVelocity := 0, birdRotation := 0,
    pipes := [], score := 0, gameOver := false }

/-- Scenario A's state: character at (100, 100) of size 30 and a static
obstacle at (100, 100) of size 30 entirely overlapping it. -/
def stateA : Crossy.State :=
  { character := { x := 100, y := 100, size := 30, isAlive := true },
    cars := [], obstacles := [{ x := 100, y := 100, size := 30 }],
    score := 0, level := 1, gameOver := false }

/-- A state whose obstacle at (100, 70) blocks the destination box of the
upward move from (100, 100). -/
def stateB : Crossy.State :=
  { character := { x := 100, y := 100, size := 30, isAlive := true },
    cars := [], obstacles := [{ x := 100, y := 70, size := 30 }],
    score := 0, level := 1, gameOver := false }

/-- A state with the character just below the finish threshold, no obstacles. -/
def stateC : Crossy.State :=
  { character := { x := 100, y := 60, size := 30, isAlive := true },
    cars := [], obstacles := [],
    score := 0, level := 1, gameOver := false }

/-- The score store of Scenarios E and F: three entries with scores 50, 40, 30. -/
def scenarioStore : List Scores.ScoreEntry :=
  [{ username := "a", score := 50 }, { username := "b", score := 40 },
    { username := "c", score := 30 }]


/-! Helper lemmas shared by the claim theorems. -/

/-- A clamped move keeps an in-bounds character in bounds. -/
lemma move_preserves_inBounds (c : Crossy.Character) (dx dy W H : ℚ)
    (h : c.inBounds W H) : (c.move dx dy W H).inBounds W H := by
  obtain ⟨h1, h2, h3, h4⟩ := h
  unfold Crossy.Character.move Crossy.Character.inBounds
  dsimp only
  constructor
  · split_ifs with hx
    · exact hx.1
    · exact h1
  refine ⟨?_, ?_, ?_⟩
  · split_ifs with hx
    · exact hx.2
    · exact h2
  · split_ifs with hy
    · exact hy.1
    · exact h3
  · split_ifs with hy
    · exact hy.2
    · exact h4

/-- Folding any move sequence keeps an in-bounds character in bounds. -/
lemma moveSeq_inBounds (W H : ℚ) (c : Crossy.Character) (ms : List (ℚ × ℚ))
    (h : c.inBounds W H) : (Crossy.moveSeq c W H ms).inBounds W H := by
  induction ms generalizing c with
  | nil => exact h
  | cons m ms ih =>
    exact ih _ (move_preserves_inBounds c m.1 m.2 W H h)

/-- A conjunct common to every element of an `any` can be hoisted out. -/
lemma any_and_left {α : Type} (a : Bool) (l : List α) (f : α → Bool) :
    (l.any fun x => a && f x) = (a && l.any f) := by
  induction l with
  | nil => simp
  | cons x l ih => simp [List.any_cons, ih, Bool.and_or_distrib_left]

/-- The score trigger fires at frame `n` exactly when `n` is the integer part
of the pipe's travel from spawn to the bird's slot, measured in frames. -/
lemma scoreTrigger_iff (sp x0 : ℚ) (hs : 0 < sp) (n : ℕ) :
    Flappy.scoreTrigger (Flappy.pipeXAfter x0 sp n) sp = true ↔
      (n : ℚ) ≤ (x0 - 96) / sp ∧ (x0 - 96) / sp < n + 1 := by
  unfold Flappy.scoreTrigger Flappy.pipeXAfter
  simp only [Bool.and_eq_true, decide_eq_true_eq]
  constructor
  · rintro ⟨h1, h2⟩
    refine ⟨(le_div_iff₀ hs).mpr (by linarith), (div_lt_iff₀ hs).mpr (by linarith)⟩
  · rintro ⟨h1, h2⟩
    rw [le_div_iff₀ hs] at h1
    rw [div_lt_iff₀ hs] at h2
    constructor <;> [linarith; linarith]

/-- A lane returned by the rejection-sampling loop is never an already-used lane. -/
lemma pickFreshLane_not_mem (draws : List ℕ) :
    ∀ (used : List ℕ) (lane : ℕ) (rest : List ℕ),
      Crossy.pickFreshLane draws used = some (lane, rest) → lane ∉ used := by
  induction draws with
  | nil => intro used lane rest h; simp [Crossy.pickFreshLane] at h
  | cons d ds ih =>
    intro used lane rest h
    unfold Crossy.pickFreshLane at h
    split_ifs at h with hd
    · exact ih used lane rest h
    · obtain ⟨rfl, rfl⟩ : d = lane ∧ ds = rest := by
        simpa using h
      exact hd

/-- The lanes of one spawn tick are pairwise distinct, avoid the used set, and
number at most the requested count. -/
lemma spawnLanes_spec : ∀ (count : ℕ) (draws used : List ℕ),
    (Crossy.spawnLanes count draws used).Nodup ∧
    (∀ l ∈ Crossy.spawnLanes count draws used, l ∉ used) ∧
    (Crossy.spawnLanes count draws used).length ≤ count := by
  intro count
  induction count with
  | zero => intro draws used; simp [Crossy.spawnLanes]
  | succ k ih =>
    intro draws used
    unfold Crossy.spawnLanes
    cases hp : Crossy.pickFreshLane draws used with
    | none => simp
    | some pr =>
      obtain ⟨lane, rest⟩ := pr
      obtain ⟨hnd, hnm, hlen⟩ := ih rest (lane :: used)
      have hlu : lane ∉ used := pickFreshLane_not_mem draws used lane rest hp
      refine ⟨?_, ?_, ?_⟩
      · exact List.nodup_cons.mpr
          ⟨fun hmem => (hnm lane hmem) (List.mem_cons_self lane used), hnd⟩
      · intro l hl
        rcases List.mem_cons.mp hl with rfl | hl'
        · exact hlu
        · exact fun hin => hnm l hl' (List.mem_cons_of_mem lane hin)
      · simpa using Nat.succ_le_succ hlen

/-! The claim theorems. -/

/-- C1 (counterexample): Scenario C is false on the code. One Running frame of
the pipe-navigation loop applied to a bird at position 300 with velocity 0 and
gravity 0.6 yields velocity 0.6 but position 300, not 300.6 — the position
update uses the frame's pre-update velocity; the position reaches 300.6 only on
the second frame. -/
theorem c1_counterexample :
    (Flappy.gameLoop Flappy.defaultSettings 600 birdStart).birdVelocity = 6/10 ∧
    (Flappy.gameLoop Flappy.defaultSettings 600 birdStart).birdPosition = 300 ∧
    (Flappy.gameLoop Flappy.defaultSettings 600 birdStart).birdPosition ≠ 3006/10 ∧
    (Flappy.gameLoop Flappy.defaultSettings 600
        (Flappy.gameLoop Flappy.defaultSettings 600 birdStart)).birdPosition = 3006/10 := by
  norm_num [Flappy.gameLoop, birdStart, Flappy.defaultSettings, Flappy.checkCollision,
    Flappy.scoreTrigger]

/-- C1 (amended): one frame of the Running loop adds the current (pre-update)
velocity to the bird's position and then adds gravity to the velocity (and
eases the rotation toward 90° by 3 per frame); for a bird at position 300 with
velocity 0 and gravity 0.6, after one frame the velocity is 0.6 and the
position is still 300. -/
theorem c1_velocity_applied_before_gravity (st : Flappy.Settings) (innerH : ℚ)
    (s : Flappy.State)
    (h0 : 0 ≤ s.birdPosition + s.birdVelocity)
    (h1 : s.birdPosition + s.birdVelocity ≤ innerH - 48) :
    (Flappy.gameLoop st innerH s).birdPosition = s.birdPosition + s.birdVelocity ∧
    (Flappy.gameLoop st innerH s).birdVelocity = s.birdVelocity + st.gravity ∧
    (Flappy.gameLoop st innerH s).birdRotation = min (s.birdRotation + 3) 90 := by
  have hb : (decide (s.birdPosition + s.birdVelocity < 0) ||
      decide (innerH - 48 < s.birdPosition + s.birdVelocity)) = false := by
    simp only [Bool.or_eq_false_iff, decide_eq_false_iff_not, not_lt]
    exact ⟨h0, h1⟩
  simp [Flappy.gameLoop, hb]

/-- C1 (witness): the amended claim instantiated at Scenario C's bird. -/
theorem c1_witness :
    (0 ≤ birdStart.birdPosition + birdStart.birdVelocity ∧
      birdStart.birdPosition + birdStart.birdVelocity ≤ 600 - 48) ∧
    ((Flappy.gameLoop Flappy.defaultSettings 600 birdStart).birdPosition =
        birdStart.birdPosition + birdStart.birdVelocity ∧
      (Flappy.gameLoop Flappy.defaultSettings 600 birdStart).birdVelocity =
        birdStart.birdVelocity + Flappy.defaultSettings.gravity ∧
      (Flappy.gameLoop Flappy.defaultSettings 600 birdStart).birdRotation =
        min (birdStart.birdRotation + 3) 90) :=
  ⟨⟨by norm_num [birdStart], by norm_num [birdStart]⟩,
    c1_velocity_applied_before_gravity Flappy.defaultSettings 600 birdStart
      (by norm_num [birdStart]) (by norm_num [birdStart])⟩

/-- C2 (counterexample): Scenario A is false on the code, and a rejected move
is not free of state change. The obstacle test uses the destination box, so the
upward move from (100,100) out of a fully-overlapping obstacle is accepted and
the character moves to y = 70 (and scores 10); conversely, with an obstacle at
(100,70) blocking the destination, the move is rejected — position stays at
(100,100) — yet the score still rises from 0 to 10. -/
theorem c2_counterexample :
    Crossy.willCollide stateA.obstacles 100 70 30 = false ∧
    (Crossy.moveCharacter Crossy.defaultSettings 400 400 stateA 0 (-1)).character.y = 70 ∧
    (Crossy.moveCharacter Crossy.defaultSettings 400 400 stateA 0 (-1)).character.y ≠ 100 ∧
    Crossy.willCollide stateB.obstacles 100 70 30 = true ∧
    (Crossy.moveCharacter Crossy.defaultSettings 400 400 stateB 0 (-1)).character.x = 100 ∧
    (Crossy.moveCharacter Crossy.defaultSettings 400 400 stateB 0 (-1)).character.y = 100 ∧
    (Crossy.moveCharacter Crossy.defaultSettings 400 400 stateB 0 (-1)).score = 10 ∧
    stateB.score = 0 := by
  norm_num [Crossy.moveCharacter, Crossy.willCollide, Crossy.Character.move,
    Crossy.Character.mk', stateA, stateB, Crossy.defaultSettings]

/-- C2 (amended): a move request whose destination bounding box would overlap a
static obstacle leaves position and level unchanged, but the score still rises
by 10 when the move is upward from y > 50 (the scoring branch does not re-check
acceptance); in Scenario A the overlap test applies to the destination box, so
the move is accepted rather than rejected. -/
theorem c2_rejected_move_keeps_position (st : Crossy.Settings) (W H : ℚ)
    (s : Crossy.State) (dx dy : ℚ)
    (hgo : s.gameOver = false)
    (hrej : Crossy.willCollide s.obstacles (s.character.x + dx * s.character.size)
        (s.character.y + dy * s.character.size) s.character.size = true) :
    (Crossy.moveCharacter st W H s dx dy).character.x = s.character.x ∧
    (Crossy.moveCharacter st W H s dx dy).character.y = s.character.y ∧
    (Crossy.moveCharacter st W H s dx dy).level = s.level ∧
    (Crossy.moveCharacter st W H s dx dy).score =
      s.score + (if dy < 0 ∧ 50 < s.character.y then 10 else 0) := by
  by_cases hc : dy < 0 ∧ 50 < s.character.y
  · simp [Crossy.moveCharacter, hgo, hrej, hc, hc.1, hc.2, Crossy.Character.mk',
      not_le.mpr hc.2]
  · have h1 : ¬(dy < 0 ∧ 50 < s.character.y ∧ s.character.y ≤ 50) := by
      rintro ⟨-, hy1, hy2⟩; linarith
    simp [Crossy.moveCharacter, hgo, hrej, h1, hc]

/-- C2 (witness): the amended claim instantiated at the blocked upward move. -/
theorem c2_witness :
    (stateB.gameOver = false ∧
      Crossy.willCollide stateB.obstacles
        (stateB.character.x + 0 * stateB.character.size)
        (stateB.character.y + (-1) * stateB.character.size) stateB.character.size = true) ∧
    ((Crossy.moveCharacter Crossy.defaultSettings 400 400 stateB 0 (-1)).character.x =
        stateB.character.x ∧
      (Crossy.moveCharacter Crossy.defaultSettings 400 400 stateB 0 (-1)).character.y =
        stateB.character.y ∧
      (Crossy.moveCharacter Crossy.defaultSettings 400 400 stateB 0 (-1)).level =
        stateB.level ∧
      (Crossy.moveCharacter Crossy.defaultSettings 400 400 stateB 0 (-1)).score =
        stateB.score + (if (-1:ℚ) < 0 ∧ 50 < stateB.character.y then 10 else 0)) :=
  ⟨⟨rfl, by norm_num [Crossy.willCollide, stateB]⟩,
    c2_rejected_move_keeps_position Crossy.defaultSettings 400 400 stateB 0 (-1) rfl
      (by norm_num [Crossy.willCollide, stateB])⟩

/-- C3: starting from any in-bounds character, every sequence of move requests
keeps the bounding box inside the play field — x within `[0, W − size]` and y
within `[0, H − size]` — and each axis of a single move is clamped
independently of the other axis. -/
theorem c3_boundary_clamp_invariant (W H : ℚ) (c : Crossy.Character)
    (ms : List (ℚ × ℚ)) (h : c.inBounds W H) :
    (Crossy.moveSeq c W H ms).inBounds W H ∧
    ∀ (c' : Crossy.Character) (dx dy : ℚ),
      (c'.move dx dy W H).x = (c'.move dx 0 W H).x ∧
      (c'.move dx dy W H).y = (c'.move 0 dy W H).y :=
  ⟨moveSeq_inBounds W H c ms h, fun _ _ _ => ⟨rfl, rfl⟩⟩

/-- C3 (witness): the invariant instantiated at a concrete character and a
concrete three-move sequence, one move of which is clamped. -/
theorem c3_witness :
    (Crossy.Character.inBounds { x := 100, y := 100, size := 30, isAlive := true }
        400 400) ∧
    (Crossy.moveSeq { x := 100, y := 100, size := 30, isAlive := true } 400 400
        [(0, -1), (1, 0), (5, 5)]).inBounds 400 400 :=
  ⟨by norm_num [Crossy.Character.inBounds],
    (c3_boundary_clamp_invariant 400 400 _ [(0, -1), (1, 0), (5, 5)]
      (by norm_num [Crossy.Character.inBounds])).1⟩

/-- C4: whenever the integrated new bird position falls outside
`[0, innerH − 48]`, the frame sets the game-over flag and the bird keeps its
previous position (in particular a nonnegative previous position stays
nonnegative, so a computed −5 is never adopted). -/
theorem c4_last_valid_position (st : Flappy.Settings) (innerH : ℚ) (s : Flappy.State)
    (h : s.birdPosition + s.birdVelocity < 0 ∨
      innerH - 48 < s.birdPosition + s.birdVelocity) :
    (Flappy.gameLoop st innerH s).gameOver = true ∧
    (Flappy.gameLoop st innerH s).birdPosition = s.birdPosition ∧
    (0 ≤ s.birdPosition → 0 ≤ (Flappy.gameLoop st innerH s).birdPosition) := by
  have hb : (decide (s.birdPosition + s.birdVelocity < 0) ||
      decide (innerH - 48 < s.birdPosition + s.birdVelocity)) = true := by
    rcases h with h | h <;> simp [h]
  refine ⟨?_, ?_, ?_⟩ <;> simp [Flappy.gameLoop, hb]

/-- C4 (witness): Scenario D — a bird at position 3 with velocity −8 integrates
to −5, the frame flags game-over and reports the old, nonnegative position. -/
theorem c4_witness :
    ((3:ℚ) + (-8) < 0 ∨ (600:ℚ) - 48 < 3 + (-8)) ∧
    ((Flappy.gameLoop Flappy.defaultSettings 600
        { birdPosition := 3, birdVelocity := -8, birdRotation := 0,
          pipes := [], score := 0, gameOver := false }).gameOver = true ∧
      (Flappy.gameLoop Flappy.defaultSettings 600
        { birdPosition := 3, birdVelocity := -8, birdRotation := 0,
          pipes := [], score := 0, gameOver := false }).birdPosition = 3 ∧
      (0 ≤ (3:ℚ) → 0 ≤ (Flappy.gameLoop Flappy.defaultSettings 600
        { birdPosition := 3, birdVelocity := -8, birdRotation := 0,
          pipes := [], score := 0, gameOver := false }).birdPosition)) := by
  refine ⟨Or.inl (by norm_num), ?_⟩
  have := c4_last_valid_position Flappy.defaultSettings 600
    { birdPosition := 3, birdVelocity := -8, birdRotation := 0,
      pipes := [], score := 0, gameOver := false } (Or.inl (by norm_num))
  simpa using this

/-- C5: the strict AABB overlap predicate is symmetric for all rectangle pairs;
the lane-crossing detector is exactly that predicate between the character box
and each car box (gated by the alive flag); and the pipe-navigation detector
agrees with the disjunction of that predicate against the top and bottom pipe
rectangles for every in-bounds bird position. -/
theorem c5_collision_aabb_symmetric :
    (∀ a b : Rect, aabbCollides a b = aabbCollides b a) ∧
    (∀ (c : Crossy.Character) (cars : List Crossy.Car),
      Crossy.checkCollisions c cars =
        (c.isAlive && cars.any fun car =>
          aabbCollides (Crossy.charRect c) (Crossy.carRect car))) ∧
    (∀ (gap innerH pos : ℚ) (pipes : List Flappy.PipeData),
      0 ≤ pos → pos + 48 ≤ innerH →
      Flappy.checkCollision gap innerH pos pipes =
        pipes.any fun p =>
          aabbCollides (Flappy.birdRect pos) (Flappy.topPipeRect p) ||
            aabbCollides (Flappy.birdRect pos) (Flappy.bottomPipeRect gap innerH p)) := by
  refine ⟨?_, ?_, ?_⟩
  · intro a b
    refine Bool.eq_iff_iff.mpr ?_
    simp only [aabbCollides, Bool.and_eq_true, decide_eq_true_eq]
    tauto
  · intro c cars
    simp only [Crossy.checkCollisions, Bool.and_assoc]
    rw [any_and_left]
    simp [aabbCollides, Crossy.charRect, Crossy.carRect, Bool.and_assoc]
  · intro gap innerH pos pipes h0 h1
    have e1 : decide ((0:ℚ) < pos + 48) = true := decide_eq_true (by linarith)
    have e2 : decide (pos < innerH) = true := decide_eq_true (by linarith)
    simp only [Flappy.checkCollision]
    induction pipes with
    | nil => simp
    | cons p ps ih =>
      simp [List.any_cons, ih, aabbCollides, Flappy.birdRect, Flappy.topPipeRect,
        Flappy.bottomPipeRect, e1, e2, Bool.and_assoc]

/-- C5 (witness): the pipe-game detector equals the AABB disjunction at a
concrete in-bounds bird and pipe. -/
theorem c5_witness :
    ((0:ℚ) ≤ 300 ∧ (300:ℚ) + 48 ≤ 600) ∧
    Flappy.checkCollision 250 600 300 [⟨0, 100, 200⟩] =
      ([⟨0, 100, 200⟩] : List Flappy.PipeData).any fun p =>
        aabbCollides (Flappy.birdRect 300) (Flappy.topPipeRect p) ||
          aabbCollides (Flappy.birdRect 300) (Flappy.bottomPipeRect 250 600 p) :=
  ⟨⟨by norm_num, by norm_num⟩,
    c5_collision_aabb_symmetric.2.2 250 600 300 [⟨0, 100, 200⟩] (by norm_num)
      (by norm_num)⟩

/-- C6: an accepted upward move from y > 50 that lands at y ≤ 50 increments the
level, adds exactly 100 to the score and recreates the character at the bottom
start row y = H − size − 10; an accepted upward move that stays at y > 50 adds
exactly 10 and leaves the level and the moved position as they are. -/
theorem c6_finish_line_scoring (st : Crossy.Settings) (W H : ℚ) (s : Crossy.State)
    (dx dy : ℚ)
    (hgo : s.gameOver = false)
    (hacc : Crossy.willCollide s.obstacles (s.character.x + dx * s.character.size)
        (s.character.y + dy * s.character.size) s.character.size = false)
    (hdy : dy < 0) (hold : 50 < s.character.y) :
    ((s.character.move dx dy W H).y ≤ 50 →
      (Crossy.moveCharacter st W H s dx dy).level = s.level + 1 ∧
      (Crossy.moveCharacter st W H s dx dy).score = s.score + 100 ∧
      (Crossy.moveCharacter st W H s dx dy).character.y = H - st.characterSize - 10 ∧
      (Crossy.moveCharacter st W H s dx dy).character.x =
        (s.character.move dx dy W H).x) ∧
    (50 < (s.character.move dx dy W H).y →
      (Crossy.moveCharacter st W H s dx dy).score = s.score + 10 ∧
      (Crossy.moveCharacter st W H s dx dy).level = s.level ∧
      (Crossy.moveCharacter st W H s dx dy).character.x =
        (s.character.move dx dy W H).x ∧
      (Crossy.moveCharacter st W H s dx dy).character.y =
        (s.character.move dx dy W H).y) := by
  constructor
  · intro hle
    simp [Crossy.moveCharacter, hgo, hacc, hdy, hold, hle, Crossy.Character.mk']
  · intro hgt
    simp [Crossy.moveCharacter, hgo, hacc, hdy, hold, hgt, not_le.mpr hgt,
      Crossy.Character.mk']

/-- C6 (witness): Scenario B — an unobstructed upward move from y = 60 crosses
the threshold: level becomes 2, score gains 100, and the character respawns at
the bottom row 400 − 30 − 10. -/
theorem c6_witness :
    (stateC.gameOver = false ∧
      Crossy.willCollide stateC.obstacles
        (stateC.character.x + 0 * stateC.character.size)
        (stateC.character.y + (-1) * stateC.character.size) stateC.character.size =
        false ∧
      (-1:ℚ) < 0 ∧ 50 < stateC.character.y ∧
      (stateC.character.move 0 (-1) 400 400).y ≤ 50) ∧
    ((Crossy.moveCharacter Crossy.defaultSettings 400 400 stateC 0 (-1)).level =
        stateC.level + 1 ∧
      (Crossy.moveCharacter Crossy.defaultSettings 400 400 stateC 0 (-1)).score =
        stateC.score + 100 ∧
      (Crossy.moveCharacter Crossy.defaultSettings 400 400 stateC 0 (-1)).character.y =
        400 - Crossy.defaultSettings.characterSize - 10) := by
  have h := c6_finish_line_scoring Crossy.defaultSettings 400 400 stateC 0 (-1) rfl rfl
    (by norm_num) (by norm_num [stateC])
  have hle : (stateC.character.move 0 (-1) 400 400).y ≤ 50 := by
    norm_num [Crossy.Character.move, stateC]
  exact ⟨⟨rfl, rfl, by norm_num, by norm_num [stateC], hle⟩,
    (h.1 hle).1, (h.1 hle).2.1, (h.1 hle).2.2.1⟩

/-- C7: against a store of exactly 3 entries and a non-empty username, a
submission is accepted iff the score strictly exceeds the store's minimum; on
rejection the user is notified and nothing changes, and on acceptance the rows
holding the minimum score are evicted and the new entry is appended. -/
theorem c7_high_score_submission (store : List Scores.ScoreEntry) (u : String)
    (sc : ℤ) (hu : u ≠ "") (hlen : store.length = 3) :
    ((Scores.saveHighScore store u sc).isAccepted = true ↔
      Scores.minScore store < sc) ∧
    (sc ≤ Scores.minScore store →
      Scores.saveHighScore store u sc = Scores.SaveResult.rejectedLow) ∧
    (Scores.minScore store < sc →
      Scores.saveHighScore store u sc = Scores.SaveResult.accepted
        ((store.filter fun e => e.score ≠ Scores.minScore store) ++ [⟨u, sc⟩])) := by
  unfold Scores.saveHighScore
  rw [if_neg hu]
  by_cases hle : sc ≤ Scores.minScore store
  · rw [if_pos ⟨by omega, hle⟩]
    refine ⟨?_, fun _ => rfl, fun h => absurd h (not_lt.mpr hle)⟩
    simp [Scores.SaveResult.isAccepted, not_lt.mpr hle]
  · have hlt : Scores.minScore store < sc := lt_of_not_le hle
    rw [if_neg (fun h => hle h.2), if_pos (by omega)]
    exact ⟨by simp [Scores.SaveResult.isAccepted, hlt], fun h => absurd h hle,
      fun _ => rfl⟩

/-- C7 (witness): Scenarios E and F — submitting 35 against [50,40,30] evicts
30 and yields [50,40,35]; submitting 25 is rejected with the user notified. -/
theorem c7_witness :
    (("me" : String) ≠ "" ∧ scenarioStore.length = 3) ∧
    (Scores.minScore scenarioStore < 35 ∧
      Scores.saveHighScore scenarioStore "me" 35 = Scores.SaveResult.accepted
        [{ username := "a", score := 50 }, { username := "b", score := 40 },
          { username := "me", score := 35 }]) ∧
    ((25 : ℤ) ≤ Scores.minScore scenarioStore ∧
      Scores.saveHighScore scenarioStore "me" 25 = Scores.SaveResult.rejectedLow) := by
  have hmin : Scores.minScore scenarioStore = 30 := by
    simp [Scores.minScore, scenarioStore, List.min?]
  have h35 := (c7_high_score_submission scenarioStore "me" 35 (by simp)
    (by simp [scenarioStore])).2.2 (by rw [hmin]; norm_num)
  have h25 := (c7_high_score_submission scenarioStore "me" 25 (by simp)
    (by simp [scenarioStore])).2.1 (by rw [hmin]; norm_num)
  refine ⟨⟨by simp, by simp [scenarioStore]⟩, ⟨by rw [hmin]; norm_num, ?_⟩,
    ⟨by rw [hmin]; norm_num, h25⟩⟩
  rw [h35]
  norm_num [scenarioStore, Scores.minScore, List.min?, List.filter]

/-- C8: for every field height at least gapSize + 100 and every random draw in
[0,1], the spawned top height is between 50 and innerH − gapSize − 50, the two
segments of the pair share their left and right edges, the vertical opening
between them is exactly gapSize, the bottom segment is at least 50 tall, and a
frame of the loop only shifts a pipe's x by pipeSpeed while preserving its
height and identity. -/
theorem c8_pipe_pair_invariant (r innerH gap x : ℚ) (pid : ℕ)
    (hr0 : 0 ≤ r) (hr1 : r ≤ 1) (hH : gap + 100 ≤ innerH) :
    50 ≤ Flappy.spawnPipeHeight r innerH gap ∧
    Flappy.spawnPipeHeight r innerH gap ≤ innerH - gap - 50 ∧
    (Flappy.bottomPipeRect gap innerH ⟨pid, x, Flappy.spawnPipeHeight r innerH gap⟩).top -
      (Flappy.topPipeRect ⟨pid, x, Flappy.spawnPipeHeight r innerH gap⟩).bottom = gap ∧
    50 ≤ (Flappy.bottomPipeRect gap innerH
        ⟨pid, x, Flappy.spawnPipeHeight r innerH gap⟩).bottom -
      (Flappy.bottomPipeRect gap innerH
        ⟨pid, x, Flappy.spawnPipeHeight r innerH gap⟩).top ∧
    (Flappy.topPipeRect ⟨pid, x, Flappy.spawnPipeHeight r innerH gap⟩).left =
      (Flappy.bottomPipeRect gap innerH ⟨pid, x, Flappy.spawnPipeHeight r innerH gap⟩).left ∧
    (Flappy.topPipeRect ⟨pid, x, Flappy.spawnPipeHeight r innerH gap⟩).right =
      (Flappy.bottomPipeRect gap innerH ⟨pid, x, Flappy.spawnPipeHeight r innerH gap⟩).right ∧
    (∀ (st : Flappy.Settings) (s : Flappy.State) (q : Flappy.PipeData),
      q ∈ (Flappy.gameLoop st innerH s).pipes →
      ∃ q0 ∈ s.pipes, q.height = q0.height ∧ q.x = q0.x - st.pipeSpeed ∧ q.id = q0.id) := by
  have hK : (0:ℚ) ≤ innerH - gap - 100 := by linarith
  have hb1 : 50 ≤ Flappy.spawnPipeHeight r innerH gap := by
    unfold Flappy.spawnPipeHeight
    nlinarith [mul_nonneg hr0 hK]
  have hb2 : Flappy.spawnPipeHeight r innerH gap ≤ innerH - gap - 50 := by
    unfold Flappy.spawnPipeHeight
    nlinarith [mul_nonneg (by linarith : (0:ℚ) ≤ 1 - r) hK]
  refine ⟨hb1, hb2, ?_, ?_, rfl, rfl, ?_⟩
  · simp [Flappy.bottomPipeRect, Flappy.topPipeRect]
  · simp only [Flappy.bottomPipeRect, Flappy.topPipeRect]
    linarith
  · intro st s q hq
    simp only [Flappy.gameLoop, List.mem_filter, List.mem_map] at hq
    obtain ⟨⟨q0, hq0, rfl⟩, -⟩ := hq
    exact ⟨q0, hq0, rfl, rfl, rfl⟩

/-- C8 (witness): the invariant at a concrete draw — field 600, gap 250, draw
1/2 — where the spawned height is 175 and the opening is exactly 250. -/
theorem c8_witness :
    ((0:ℚ) ≤ 1/2 ∧ (1/2:ℚ) ≤ 1 ∧ (250:ℚ) + 100 ≤ 600) ∧
    50 ≤ Flappy.spawnPipeHeight (1/2) 600 250 ∧
    Flappy.spawnPipeHeight (1/2) 600 250 ≤ 600 - 250 - 50 ∧
    (Flappy.bottomPipeRect 250 600 ⟨0, 800, Flappy.spawnPipeHeight (1/2) 600 250⟩).top -
      (Flappy.topPipeRect ⟨0, 800, Flappy.spawnPipeHeight (1/2) 600 250⟩).bottom = 250 := by
  have h := c8_pipe_pair_invariant (1/2) 600 250 800 0 (by norm_num) (by norm_num)
    (by norm_num)
  exact ⟨⟨by norm_num, by norm_num, by norm_num⟩, h.1, h.2.1, h.2.2.1⟩

/-- C9: with pipeSpeed > 0, a pipe pair that starts at or right of the bird's
slot x = 96 fires the score trigger on exactly one frame — the unique frame
whose movement takes the pair's position from ≥ 96 to < 96 — and on that frame
the pair still survives the off-screen cull whenever pipeSpeed < 196, so it is
counted exactly once and a pair already past the slot never scores again. -/
theorem c9_score_edge_crossing (sp x0 : ℚ) (hs : 0 < sp) (hx : 96 ≤ x0) :
    (∃! n : ℕ, Flappy.scoreTrigger (Flappy.pipeXAfter x0 sp n) sp = true) ∧
    (∀ n : ℕ, Flappy.scoreTrigger (Flappy.pipeXAfter x0 sp n) sp = true →
      sp < 196 → -100 < Flappy.pipeXAfter x0 sp n) := by
  constructor
  · set q : ℚ := (x0 - 96) / sp with hqdef
    have hq0 : 0 ≤ q := div_nonneg (by linarith) hs.le
    have hfl0 : 0 ≤ ⌊q⌋ := Int.floor_nonneg.mpr hq0
    have hzc : ((⌊q⌋.toNat : ℕ) : ℤ) = ⌊q⌋ := Int.toNat_of_nonneg hfl0
    have hqc : ((⌊q⌋.toNat : ℕ) : ℚ) = ((⌊q⌋ : ℤ) : ℚ) := by exact_mod_cast hzc
    refine ⟨⌊q⌋.toNat, ?_, ?_⟩
    · show Flappy.scoreTrigger (Flappy.pipeXAfter x0 sp ⌊q⌋.toNat) sp = true
      rw [scoreTrigger_iff sp x0 hs]
      constructor
      · rw [hqc]; exact Int.floor_le q
      · rw [hqc]; exact_mod_cast Int.lt_floor_add_one q
    · intro m hm
      have hm' := (scoreTrigger_iff sp x0 hs m).mp hm
      have hfm : ⌊q⌋ = (m : ℤ) := by
        rw [Int.floor_eq_iff]
        exact ⟨by exact_mod_cast hm'.1, by exact_mod_cast hm'.2⟩
      omega
  · intro n hn hlt
    unfold Flappy.scoreTrigger at hn
    simp only [Bool.and_eq_true, decide_eq_true_eq] at hn
    unfold Flappy.pipeXAfter at hn ⊢
    linarith [hn.1]

/-- C9 (witness): at speed 3 and spawn position 800 the trigger fires on a
unique frame and the pair is still on screen there. -/
theorem c9_witness :
    ((0:ℚ) < 3 ∧ (96:ℚ) ≤ 800) ∧
    ((∃! n : ℕ, Flappy.scoreTrigger (Flappy.pipeXAfter 800 3 n) 3 = true) ∧
      (∀ n : ℕ, Flappy.scoreTrigger (Flappy.pipeXAfter 800 3 n) 3 = true →
        (3:ℚ) < 196 → -100 < Flappy.pipeXAfter 800 3 n)) :=
  ⟨⟨by norm_num, by norm_num⟩, c9_score_edge_crossing 3 800 (by norm_num) (by norm_num)⟩

/-- C10 (counterexample): with the default settings at level 1 the spawn-chance
roll 0 succeeds (the chance is positive), yet the count roll 0 yields
`Math.ceil(0 * maxCars) = 0` — zero cars are spawned on a cooldown-elapsed
tick, so the roll can decide that no car spawns. -/
theorem c10_counterexample :
    (0:ℚ) < Crossy.totalSpawnChance Crossy.defaultSettings 1 ∧
    Crossy.carsToSpawn Crossy.defaultSettings 1 0 0 = 0 := by
  constructor
  · norm_num [Crossy.totalSpawnChance, Crossy.defaultSettings, min_def]
  · norm_num [Crossy.carsToSpawn, Crossy.totalSpawnChance, Crossy.defaultSettings,
      Crossy.maxCarsToSpawn, min_def]

/-- C10 (amended): on a cooldown-elapsed spawn tick, a failed spawn-chance roll
spawns exactly one car, and a successful roll spawns between 1 and 3 cars
whenever the count roll is strictly positive (a count roll of exactly 0 spawns
none); the selected lanes are pairwise distinct and number at most the count. -/
theorem c10_spawn_count_amended (st : Crossy.Settings) (level : ℕ) (r1 r2 : ℚ)
    (h1 : 0 < r2) (h2 : r2 ≤ 1) :
    (1 ≤ Crossy.carsToSpawn st level r1 r2 ∧ Crossy.carsToSpawn st level r1 r2 ≤ 3) ∧
    (Crossy.totalSpawnChance st level ≤ r1 → Crossy.carsToSpawn st level r1 r2 = 1) ∧
    (∀ (count : ℕ) (draws used : List ℕ),
      (Crossy.spawnLanes count draws used).Nodup ∧
      (Crossy.spawnLanes count draws used).length ≤ count) := by
  have hM1 : 1 ≤ Crossy.maxCarsToSpawn level := by
    unfold Crossy.maxCarsToSpawn; omega
  have hM3 : Crossy.maxCarsToSpawn level ≤ 3 := by
    unfold Crossy.maxCarsToSpawn; omega
  refine ⟨?_, ?_, ?_⟩
  · unfold Crossy.carsToSpawn
    split_ifs with h
    · constructor
      · have hpos : (0:ℚ) < r2 * (Crossy.maxCarsToSpawn level : ℚ) :=
          mul_pos h1 (by exact_mod_cast Nat.lt_of_lt_of_le Nat.zero_lt_one hM1)
        have := Int.ceil_pos.mpr hpos
        omega
      · have hle : r2 * (Crossy.maxCarsToSpawn level : ℚ) ≤ 3 := by
          have hm : r2 * (Crossy.maxCarsToSpawn level : ℚ) ≤
              (Crossy.maxCarsToSpawn level : ℚ) :=
            mul_le_of_le_one_left (by positivity) h2
          have h3 : ((Crossy.maxCarsToSpawn level : ℕ) : ℚ) ≤ 3 := by exact_mod_cast hM3
          linarith
        exact_mod_cast Int.ceil_le.mpr (by exact_mod_cast hle)
    · norm_num
  · intro h
    unfold Crossy.carsToSpawn
    rw [if_neg (not_lt.mpr h)]
  · intro count draws used
    exact ⟨(spawnLanes_spec count draws used).1, (spawnLanes_spec count draws used).2.2⟩

/-- C10 (witness): the amended claim at level 1 with a successful chance roll
and count roll 1/2. -/
theorem c10_witness :
    ((0:ℚ) < 1/2 ∧ (1/2:ℚ) ≤ 1) ∧
    ((1 ≤ Crossy.carsToSpawn Crossy.defaultSettings 1 0 (1/2) ∧
        Crossy.carsToSpawn Crossy.defaultSettings 1 0 (1/2) ≤ 3) ∧
      (Crossy.totalSpawnChance Crossy.defaultSettings 1 ≤ 0 →
        Crossy.carsToSpawn Crossy.defaultSettings 1 0 (1/2) = 1) ∧
      (∀ (count : ℕ) (draws used : List ℕ),
        (Crossy.spawnLanes count draws used).Nodup ∧
        (Crossy.spawnLanes count draws used).length ≤ count)) :=
  ⟨⟨by norm_num, by norm_num⟩,
    c10_spawn_count_amended Crossy.defaultSettings 1 0 (1/2) (by norm_num) (by norm_num)⟩
